import Mathlib

set_option maxHeartbeats 1000000

/- Shallow embedding of src/main.rs of config-options-gtk.

   OsString values are modelled as String where the code treats them as whole
   tokens, and as List Nat (byte sequences) where the code manipulates raw
   bytes (the relaunch filename scheme).  All filename constants involved are
   ASCII, so char codes coincide with UTF-8 bytes. -/

inductive ParseErrorType where
  | HelpRequested
  | VersionInfoRequested
  | MissingArgument
  | WrongArgument
  deriving DecidableEq

structure ParseError where
  message : String
  error_type : ParseErrorType
  deriving DecidableEq

def ParseError.missing_argument (msg : String) : ParseError :=
  { error_type := ParseErrorType.MissingArgument, message := msg }

def ParseError.wrong_argument (msg : String) : ParseError :=
  { error_type := ParseErrorType.WrongArgument, message := msg }

def ParseError.help_requested : ParseError :=
  { error_type := ParseErrorType.HelpRequested, message := "" }

def ParseError.version_requested : ParseError :=
  { error_type := ParseErrorType.VersionInfoRequested, message := "" }

inductive MessageType where
  | WARNING
  | ERROR
  deriving DecidableEq

/- The two execution strategies are function pointers in the source
   (exec_in_terminal and exec_in_shell); the space of values a CommandFunction
   field can hold is exactly these two functions, so the type is embedded as a
   two-element enumeration tagging which strategy a Command is bound to. -/
inductive CommandFunction where
  | exec_in_terminal
  | exec_in_shell
  deriving DecidableEq

structure Command where
  command : String
  exec : CommandFunction
  deriving DecidableEq

structure Button where
  label : String
  icon : Option String
  command : Command
  deriving DecidableEq

structure Configuration where
  message : String
  exit_after_action : Bool
  message_type : MessageType
  buttons : List Button
  deriving DecidableEq

/- str::eq_ignore_ascii_case compares the byte sequences after ASCII
   lowercasing; on Strings this is comparison of the char sequences after
   lowercasing the chars in the ASCII uppercase range. -/
def asciiLowerChar (c : Char) : Char :=
  if 'A' ≤ c ∧ c ≤ 'Z' then Char.ofNat (c.toNat + 32) else c

def eq_ignore_ascii_case (a b : String) : Bool :=
  decide (a.data.map asciiLowerChar = b.data.map asciiLowerChar)

/- v.as_bytes().starts_with(b"-"): the first UTF-8 byte is the byte of the
   ASCII char "-" exactly when the first char is that char. -/
def starts_with_dash (v : String) : Bool :=
  match v.data with
  | [] => false
  | c :: _ => decide (c = '-')

/- Configuration::create_button.  The source keeps a cursor pos into the
   argument slice, entering with pos at the flag itself; here the cursor is
   represented by the list of tokens after the flag, and the function returns
   the built Button together with the tokens remaining after the ones it
   consumed (label, action, and the icon only when the look-ahead token exists
   and does not begin with a dash). -/
def create_button (args : List String) (cmd_func : CommandFunction) :
    Except ParseError (Button × List String) :=
  match args with
  | [] => Except.error (ParseError.missing_argument "Missing label for Button.")
  | label :: rest1 =>
    match rest1 with
    | [] => Except.error (ParseError.missing_argument "Missing action for Button.")
    | action :: rest2 =>
      match rest2 with
      | [] =>
        Except.ok ({ label := label, icon := none,
                     command := { command := action, exec := cmd_func } }, rest2)
      | v :: rest3 =>
        if starts_with_dash v then
          Except.ok ({ label := label, icon := none,
                       command := { command := action, exec := cmd_func } }, v :: rest3)
        else
          Except.ok ({ label := label, icon := some v,
                       command := { command := action, exec := cmd_func } }, rest3)

/- The while loop of Configuration::new, with the cursor represented as the
   list of not-yet-examined tokens.  The calls to create_button are inlined
   (self-contained recursion); the lemma parseArgs_button_step below proves
   the inlined branches equal to the composition with create_button.  In the
   branches where every remaining token has been consumed the loop body would
   step the cursor past the end and the while loop would exit with Ok, which
   is written here as returning Except.ok directly.  In the branch where the
   icon look-ahead token v begins with a dash, v is not consumed, so the loop
   continues with the cursor on v (the remainder v :: rest3). -/
def parseArgs : List String → Configuration → Except ParseError Configuration
  | [], config => Except.ok config
  | a :: rest, config =>
    if a = "-m" ∨ a = "--message" then
      match rest with
      | [] => Except.error (ParseError.missing_argument "Required argument for -m is missing.")
      | msg :: rest1 => parseArgs rest1 { config with message := msg }
    else if a = "-t" ∨ a = "--type" then
      match rest with
      | [] => Except.error (ParseError.missing_argument "Required argument for -t is missing.")
      | ty :: rest1 =>
        if eq_ignore_ascii_case ty "warning" then
          parseArgs rest1 { config with message_type := MessageType.WARNING }
        else if eq_ignore_ascii_case ty "error" then
          parseArgs rest1 config
        else
          Except.error (ParseError.wrong_argument
            ("Parameter for -t (" ++ ty ++ ") was neither warning nor error."))
    else if a = "-b" ∨ a = "--button" then
      match rest with
      | [] => Except.error (ParseError.missing_argument "Missing label for Button.")
      | _label :: rest1 =>
        match rest1 with
        | [] => Except.error (ParseError.missing_argument "Missing action for Button.")
        | action :: rest2 =>
          match rest2 with
          | [] =>
            Except.ok { config with buttons := config.buttons ++
              [{ label := _label, icon := none,
                 command := { command := action, exec := CommandFunction.exec_in_terminal } }] }
          | v :: rest3 =>
            if starts_with_dash v then
              parseArgs (v :: rest3) { config with buttons := config.buttons ++
                [{ label := _label, icon := none,
                   command := { command := action, exec := CommandFunction.exec_in_terminal } }] }
            else
              parseArgs rest3 { config with buttons := config.buttons ++
                [{ label := _label, icon := some v,
                   command := { command := action, exec := CommandFunction.exec_in_terminal } }] }
    else if a = "-B" ∨ a = "--button-no-terminal" then
      match rest with
      | [] => Except.error (ParseError.missing_argument "Missing label for Button.")
      | _label :: rest1 =>
        match rest1 with
        | [] => Except.error (ParseError.missing_argument "Missing action for Button.")
        | action :: rest2 =>
          match rest2 with
          | [] =>
            Except.ok { config with buttons := config.buttons ++
              [{ label := _label, icon := none,
                 command := { command := action, exec := CommandFunction.exec_in_shell } }] }
          | v :: rest3 =>
            if starts_with_dash v then
              parseArgs (v :: rest3) { config with buttons := config.buttons ++
                [{ label := _label, icon := none,
                   command := { command := action, exec := CommandFunction.exec_in_shell } }] }
            else
              parseArgs rest3 { config with buttons := config.buttons ++
                [{ label := _label, icon := some v,
                   command := { command := action, exec := CommandFunction.exec_in_shell } }] }
    else if a = "--exit-after-action" then
      parseArgs rest { config with exit_after_action := true }
    else if a = "-f" ∨ a = "--font" then
      match rest with
      | [] => Except.ok config
      | _ :: rest1 => parseArgs rest1 config
    else if a = "-h" ∨ a = "--help" then
      Except.error ParseError.help_requested
    else if a = "-v" ∨ a = "--version" then
      Except.error ParseError.version_requested
    else
      Except.error (ParseError.wrong_argument ("Unexpected argument: " ++ a))
  termination_by l _ => l.length
  decreasing_by all_goals (simp; try omega)

def default_configuration : Configuration :=
  { buttons := [], message_type := MessageType.ERROR,
    exit_after_action := false, message := "This could be your text!" }

/- Configuration::new starts its cursor at index 1, skipping argv[0]. -/
def Configuration.new (args : List String) : Except ParseError Configuration :=
  parseArgs (args.drop 1) default_configuration

def handle_error (err : ParseError) : Int :=
  if err.error_type = ParseErrorType.HelpRequested then 0
  else if err.error_type = ParseErrorType.VersionInfoRequested then 0
  else 1

/- args[0].to_string_lossy().ends_with(".cmd") -/
def ends_with_cmd (s : String) : Bool :=
  List.isSuffixOf ['.', 'c', 'm', 'd'] s.data

/- The exit code of main: none when argv is empty (the source would panic
   indexing args[0]); the GUI path and the relaunch path end with exit code 0
   when they return normally, and a parse error exits with the code computed
   by handle_error. -/
def main_exit_code (args : List String) : Option Int :=
  match args with
  | [] => none
  | arg0 :: _ =>
    if ends_with_cmd arg0 then some 0
    else
      match Configuration.new args with
      | Except.ok _ => some 0
      | Except.error e => some (handle_error e)

/- Byte-level model of the relaunch filename scheme.  Strings are mapped to
   their byte sequences; the names involved are ASCII so the char codes are
   the UTF-8 bytes. -/
def strBytes (s : String) : List Nat :=
  s.data.map Char.toNat

def PROGRAM_NAME : String := "options-window-gtk"

/- format ("\x7b\x7d_\x7b\x7d.sh", prog, rnd): the script filename built in
   exec_in_terminal.  The program name is a parameter here, instantiated with
   PROGRAM_NAME by the terminal strategy; rnd is the 30-char random
   alphanumeric suffix (kept arbitrary). -/
def script_name (prog : List Nat) (rnd : List Nat) : List Nat :=
  prog ++ [95] ++ rnd ++ strBytes ".sh"

def link_name (prog : List Nat) (rnd : List Nat) : List Nat :=
  prog ++ [95] ++ rnd ++ strBytes ".cmd"

/- PathBuf::push of a filename onto a directory without a trailing
   separator. -/
def path_push (dir : List Nat) (name : List Nat) : List Nat :=
  dir ++ [47] ++ name

/- The derivation inside run_script: OsString::from_vec of the bytes of cmd
   up to cmd.len() - 3, then push "sh". -/
def run_script_derive (cmd : List Nat) : List Nat :=
  List.take (cmd.length - 3) cmd ++ strBytes "sh"

/- Environment oracle for one call of exec_in_terminal: the values returned
   by the ambient filesystem and process effects, in the order the source
   performs them.  write_script stands for the sequence of six write_all
   calls and the flush on the script file (its first failure), all of which
   propagate with the question-mark operator exactly like a single one. -/
structure TermEnv where
  xdg_runtime_dir : Option (List Nat)
  temp_dir : List Nat
  rnd : List Nat
  create_file : Except String Unit
  metadata_perms : Except String Nat
  set_permissions : Except String Unit
  write_script : Except String Unit
  current_exe : Except String (List Nat)
  symlink_result : Except String Unit
  spawn_result : Except String Nat

/- Outcome of exec_in_terminal: a spawned child, an Err propagated to the
   caller, or a panic (the .expect call aborts the process instead of
   returning). -/
inductive ExecOutcome where
  | ok (child : Nat)
  | err (e : String)
  | panicked (msg : String)
  deriving DecidableEq

/- The temp directory choice: XDG_RUNTIME_DIR if set, else the platform temp
   directory. -/
def term_tmpdir (env : TermEnv) : List Nat :=
  match env.xdg_runtime_dir with
  | some v => v
  | none => env.temp_dir

def terminal_script_path (env : TermEnv) : List Nat :=
  path_push (term_tmpdir env) (script_name (strBytes PROGRAM_NAME) env.rnd)

def terminal_link_path (env : TermEnv) : List Nat :=
  path_push (term_tmpdir env) (link_name (strBytes PROGRAM_NAME) env.rnd)

/- fn exec_in_terminal, with the effect results supplied by the oracle, in
   source order: File::create?, metadata()?, set_permissions(..).expect(..)
   (a panic, not a propagated error), the write_all/flush sequence (each with
   a question mark), current_exe()?, symlink(..)?, and finally the spawn of
   the terminal emulator whose result is returned. -/
def exec_in_terminal (env : TermEnv) : ExecOutcome :=
  match env.create_file with
  | Except.error e => ExecOutcome.err e
  | Except.ok _ =>
    match env.metadata_perms with
    | Except.error e => ExecOutcome.err e
    | Except.ok _ =>
      match env.set_permissions with
      | Except.error _ => ExecOutcome.panicked "Couldn\x27t set permissions for script file"
      | Except.ok _ =>
        match env.write_script with
        | Except.error e => ExecOutcome.err e
        | Except.ok _ =>
          match env.current_exe with
          | Except.error e => ExecOutcome.err e
          | Except.ok _ =>
            match env.symlink_result with
            | Except.error e => ExecOutcome.err e
            | Except.ok _ =>
              match env.spawn_result with
              | Except.error e => ExecOutcome.err e
              | Except.ok c => ExecOutcome.ok c

/- Reference extraction for claim C5, written after the words of the spec:
   the i-th element is the Button built from the i-th button flag in
   left-to-right order, with a dash-initial look-ahead token left for the
   next flag; tokens consumed as operands of the other flags are skipped.
   On argument lists the parser rejects, the value of this function is
   irrelevant (the claim is conditioned on a successful parse). -/
def spec_button_list : List String → List Button
  | [] => []
  | a :: rest =>
    if a = "-b" ∨ a = "--button" ∨ a = "-B" ∨ a = "--button-no-terminal" then
      match rest with
      | label :: action :: rest2 =>
        let strat := if a = "-b" ∨ a = "--button" then CommandFunction.exec_in_terminal
                     else CommandFunction.exec_in_shell
        match rest2 with
        | [] => [{ label := label, icon := none,
                   command := { command := action, exec := strat } }]
        | v :: rest3 =>
          if starts_with_dash v then
            { label := label, icon := none,
              command := { command := action, exec := strat } } :: spec_button_list (v :: rest3)
          else
            { label := label, icon := some v,
              command := { command := action, exec := strat } } :: spec_button_list rest3
      | _ => []
    else if a = "-m" ∨ a = "--message" ∨ a = "-t" ∨ a = "--type" ∨ a = "-f" ∨ a = "--font" then
      match rest with
      | [] => []
      | _ :: rest1 => spec_button_list rest1
    else
      spec_button_list rest
  termination_by l => l.length
  decreasing_by all_goals (simp; try omega)

theorem strBytes_cmd : strBytes ".cmd" = [46, 99, 109, 100] := rfl

theorem strBytes_sh : strBytes ".sh" = [46, 115, 104] := rfl

theorem run_script_derive_append_cmd (q : List Nat) :
    run_script_derive (q ++ strBytes ".cmd") = q ++ strBytes ".sh" := by
  rw [run_script_derive, strBytes_cmd, strBytes_sh, show strBytes "sh" = [115, 104] from rfl]
  have h4 : (q ++ [46, 99, 109, 100]).length - 3 = q.length + 1 := by
    simp
  rw [h4, List.take_append]
  simp

/-- C1: the terminal strategy names the script prog_suffix.sh and the link
prog_suffix.cmd with the identical suffix, and for every link path ending in
the four bytes of ".cmd", the derivation in run_script (dropping the final 3
bytes and appending the two bytes of "sh") reproduces the paired script path
byte-for-byte; in particular, applied to the link path built by the terminal
strategy it yields exactly the script path built by the same call. -/
theorem relaunch_filename_roundtrip :
    ∀ (prog rnd tmpdir q : List Nat) (env : TermEnv),
      script_name prog rnd = prog ++ [95] ++ rnd ++ strBytes ".sh" ∧
      link_name prog rnd = prog ++ [95] ++ rnd ++ strBytes ".cmd" ∧
      run_script_derive (q ++ strBytes ".cmd") = q ++ strBytes ".sh" ∧
      run_script_derive (path_push tmpdir (link_name prog rnd)) =
        path_push tmpdir (script_name prog rnd) ∧
      run_script_derive (terminal_link_path env) = terminal_script_path env := by
  intro prog rnd tmpdir q env
  refine ⟨rfl, rfl, run_script_derive_append_cmd q, ?_, ?_⟩
  · have := run_script_derive_append_cmd (tmpdir ++ [47] ++ (prog ++ [95] ++ rnd))
    simpa [path_push, link_name, script_name, List.append_assoc] using this
  · have := run_script_derive_append_cmd
      (term_tmpdir env ++ [47] ++ (strBytes PROGRAM_NAME ++ [95] ++ env.rnd))
    simpa [terminal_link_path, terminal_script_path, path_push, link_name, script_name,
           List.append_assoc] using this

/-- C4 (amended): every filesystem or process error during terminal-strategy
execution is propagated to the caller as an Err result, except a failure of
the permission-setting step, which panics (aborts via expect) instead of
being returned; a successful spawn is returned as Ok. -/
theorem terminal_error_propagation : ∀ (env : TermEnv),
    (∀ e, env.create_file = Except.error e → exec_in_terminal env = ExecOutcome.err e) ∧
    (∀ e, env.create_file = Except.ok () → env.metadata_perms = Except.error e →
      exec_in_terminal env = ExecOutcome.err e) ∧
    (∀ e p, env.create_file = Except.ok () → env.metadata_perms = Except.ok p →
      env.set_permissions = Except.error e →
      exec_in_terminal env = ExecOutcome.panicked "Couldn\x27t set permissions for script file") ∧
    (∀ e p, env.create_file = Except.ok () → env.metadata_perms = Except.ok p →
      env.set_permissions = Except.ok () → env.write_script = Except.error e →
      exec_in_terminal env = ExecOutcome.err e) ∧
    (∀ e p, env.create_file = Except.ok () → env.metadata_perms = Except.ok p →
      env.set_permissions = Except.ok () → env.write_script = Except.ok () →
      env.current_exe = Except.error e → exec_in_terminal env = ExecOutcome.err e) ∧
    (∀ e p x, env.create_file = Except.ok () → env.metadata_perms = Except.ok p →
      env.set_permissions = Except.ok () → env.write_script = Except.ok () →
      env.current_exe = Except.ok x → env.symlink_result = Except.error e →
      exec_in_terminal env = ExecOutcome.err e) ∧
    (∀ e p x, env.create_file = Except.ok () → env.metadata_perms = Except.ok p →
      env.set_permissions = Except.ok () → env.write_script = Except.ok () →
      env.current_exe = Except.ok x → env.symlink_result = Except.ok () →
      env.spawn_result = Except.error e → exec_in_terminal env = ExecOutcome.err e) ∧
    (∀ c p x, env.create_file = Except.ok () → env.metadata_perms = Except.ok p →
      env.set_permissions = Except.ok () → env.write_script = Except.ok () →
      env.current_exe = Except.ok x → env.symlink_result = Except.ok () →
      env.spawn_result = Except.ok c → exec_in_terminal env = ExecOutcome.ok c) := by
  intro env
  refine ⟨?_, ?_, ?_, ?_, ?_, ?_, ?_, ?_⟩ <;> intros <;> simp_all [exec_in_terminal]

/-- C4 counterexample: when only the permission-setting step fails, the
outcome is a panic, not an Err result as the claim states. -/
theorem set_permissions_panic_cex :
    exec_in_terminal
      { xdg_runtime_dir := none,
        temp_dir := strBytes "/tmp",
        rnd := strBytes "AAAAAAAAAAAAAAAAAAAAAAAAAAAAAA",
        create_file := Except.ok (),
        metadata_perms := Except.ok 420,
        set_permissions := Except.error "EPERM",
        write_script := Except.ok (),
        current_exe := Except.ok (strBytes "/usr/bin/options-window-gtk"),
        symlink_result := Except.ok (),
        spawn_result := Except.ok 1 } =
    ExecOutcome.panicked "Couldn\x27t set permissions for script file" := rfl

theorem terminal_error_propagation_witness :
    exec_in_terminal
      { xdg_runtime_dir := none,
        temp_dir := strBytes "/tmp",
        rnd := strBytes "B",
        create_file := Except.error "ENOSPC",
        metadata_perms := Except.ok 420,
        set_permissions := Except.ok (),
        write_script := Except.ok (),
        current_exe := Except.ok [],
        symlink_result := Except.ok (),
        spawn_result := Except.ok 7 } =
      ExecOutcome.err "ENOSPC" ∧
    exec_in_terminal
      { xdg_runtime_dir := none,
        temp_dir := strBytes "/tmp",
        rnd := strBytes "B",
        create_file := Except.ok (),
        metadata_perms := Except.ok 420,
        set_permissions := Except.ok (),
        write_script := Except.ok (),
        current_exe := Except.ok [],
        symlink_result := Except.ok (),
        spawn_result := Except.ok 7 } =
      ExecOutcome.ok 7 :=
  ⟨(terminal_error_propagation _).1 "ENOSPC" rfl,
   (terminal_error_propagation _).2.2.2.2.2.2.2 7 420 [] rfl rfl rfl rfl rfl rfl rfl⟩

/-- C3 (amended): when the cursor reaches a -h or --help token in flag
position, parsing returns HelpRequested immediately, whatever the later
tokens are; in particular with -h or --help as the first argument after
argv[0] the whole parse returns HelpRequested for every continuation. -/
theorem help_short_circuit :
    ∀ (config : Configuration) (rest : List String) (arg0 : String),
      parseArgs ("-h" :: rest) config = Except.error ParseError.help_requested ∧
      parseArgs ("--help" :: rest) config = Except.error ParseError.help_requested ∧
      Configuration.new (arg0 :: "-h" :: rest) = Except.error ParseError.help_requested ∧
      Configuration.new (arg0 :: "--help" :: rest) = Except.error ParseError.help_requested := by
  intro config rest arg0
  have h1 : ∀ c : Configuration, parseArgs ("-h" :: rest) c =
      Except.error ParseError.help_requested := by
    intro c; rw [parseArgs.eq_def]; simp
  have h2 : ∀ c : Configuration, parseArgs ("--help" :: rest) c =
      Except.error ParseError.help_requested := by
    intro c; rw [parseArgs.eq_def]; simp
  exact ⟨h1 config, h2 config,
    by simpa [Configuration.new] using h1 default_configuration,
    by simpa [Configuration.new] using h2 default_configuration⟩

/-- C3 counterexample: the argument list [app, -m, -h] contains -h after
argv[0], yet parsing succeeds with message -h (the -m flag consumes the -h
token as its operand), so the parse does not return HelpRequested. -/
theorem help_inside_message_cex :
    Configuration.new ["app", "-m", "-h"] =
      Except.ok { message := "-h", exit_after_action := false,
                  message_type := MessageType.ERROR, buttons := [] } ∧
    Configuration.new ["app", "-m", "-h"] ≠ Except.error ParseError.help_requested := by
  constructor
  · simp [Configuration.new, parseArgs, default_configuration]
  · simp [Configuration.new, parseArgs, default_configuration]

/-- C6 (amended): a -m or --message reached as a flag with no following token
yields MissingArgument, and a -b reached as a flag followed by exactly one
token (label present, action missing) yields MissingArgument; the error is
returned immediately as the result, so no Configuration is produced. -/
theorem missing_operand :
    ∀ (config : Configuration) (label arg0 : String),
      parseArgs ["-m"] config =
        Except.error (ParseError.missing_argument "Required argument for -m is missing.") ∧
      parseArgs ["--message"] config =
        Except.error (ParseError.missing_argument "Required argument for -m is missing.") ∧
      parseArgs ["-b", label] config =
        Except.error (ParseError.missing_argument "Missing action for Button.") ∧
      parseArgs ["-b"] config =
        Except.error (ParseError.missing_argument "Missing label for Button.") ∧
      Configuration.new [arg0, "-m"] =
        Except.error (ParseError.missing_argument "Required argument for -m is missing.") ∧
      Configuration.new [arg0, "-b", label] =
        Except.error (ParseError.missing_argument "Missing action for Button.") := by
  intro config label arg0
  refine ⟨?_, ?_, ?_, ?_, ?_, ?_⟩ <;>
    simp [Configuration.new, parseArgs, default_configuration]

/-- C6 counterexample: the argument list [app, -m, -m] ends with -m with no
following token, yet parsing succeeds (the first -m consumes the second as
its operand), so the parse does not return MissingArgument. -/
theorem trailing_m_cex :
    Configuration.new ["app", "-m", "-m"] =
      Except.ok { message := "-m", exit_after_action := false,
                  message_type := MessageType.ERROR, buttons := [] } := by
  simp [Configuration.new, parseArgs, default_configuration]

theorem parseArgs_button_step :
    ∀ (rest : List String) (config : Configuration),
      (parseArgs ("-b" :: rest) config =
        match create_button rest CommandFunction.exec_in_terminal with
        | Except.error e => Except.error e
        | Except.ok (b, rem) =>
            parseArgs rem { config with buttons := config.buttons ++ [b] }) ∧
      (parseArgs ("-B" :: rest) config =
        match create_button rest CommandFunction.exec_in_shell with
        | Except.error e => Except.error e
        | Except.ok (b, rem) =>
            parseArgs rem { config with buttons := config.buttons ++ [b] }) := by
  intro rest config
  constructor <;>
    (rcases rest with _ | ⟨label, _ | ⟨action, _ | ⟨v, rest3⟩⟩⟩ <;>
      (rw [parseArgs.eq_def]; simp [create_button, parseArgs]) <;>
      rcases h : starts_with_dash v <;>
      simp [h, parseArgs])

/-- C2: when a button flag is followed by a label token and an action token,
the built Button has icon some v exactly when a further token v exists and
its first byte is not a dash; when the look-ahead token begins with a dash
the icon is none and the token is not consumed, so the parser processes it
as the next flag. -/
theorem icon_lookahead :
    ∀ (f : CommandFunction) (label action v : String) (rest : List String)
      (config : Configuration),
      create_button [label, action] f =
        Except.ok ({ label := label, icon := none,
                     command := { command := action, exec := f } }, []) ∧
      (starts_with_dash v = true →
        create_button (label :: action :: v :: rest) f =
          Except.ok ({ label := label, icon := none,
                       command := { command := action, exec := f } }, v :: rest)) ∧
      (starts_with_dash v = false →
        create_button (label :: action :: v :: rest) f =
          Except.ok ({ label := label, icon := some v,
                       command := { command := action, exec := f } }, rest)) ∧
      (starts_with_dash v = true →
        parseArgs ("-b" :: label :: action :: v :: rest) config =
          parseArgs (v :: rest) { config with buttons := config.buttons ++
            [{ label := label, icon := none,
               command := { command := action, exec := CommandFunction.exec_in_terminal } }] }) ∧
      (starts_with_dash v = true →
        parseArgs ("-B" :: label :: action :: v :: rest) config =
          parseArgs (v :: rest) { config with buttons := config.buttons ++
            [{ label := label, icon := none,
               command := { command := action, exec := CommandFunction.exec_in_shell } }] }) := by
  intro f label action v rest config
  refine ⟨rfl, ?_, ?_, ?_, ?_⟩
  · intro h; simp [create_button, h]
  · intro h; simp [create_button, h]
  · intro h; rw [parseArgs.eq_def]; simp [h]
  · intro h; rw [parseArgs.eq_def]; simp [h]

theorem icon_lookahead_witness :
    create_button ["L", "A", "-t", "error"] CommandFunction.exec_in_terminal =
      Except.ok ({ label := "L", icon := none,
                   command := { command := "A", exec := CommandFunction.exec_in_terminal } },
                 ["-t", "error"]) ∧
    create_button ["L", "A", "icon.png"] CommandFunction.exec_in_shell =
      Except.ok ({ label := "L", icon := some "icon.png",
                   command := { command := "A", exec := CommandFunction.exec_in_shell } }, []) ∧
    parseArgs ["-b", "L", "A", "-t", "error"] default_configuration =
      parseArgs ["-t", "error"] { default_configuration with buttons :=
        [{ label := "L", icon := none,
           command := { command := "A", exec := CommandFunction.exec_in_terminal } }] } :=
  ⟨(icon_lookahead CommandFunction.exec_in_terminal "L" "A" "-t" ["error"]
      default_configuration).2.1 (by decide),
   (icon_lookahead CommandFunction.exec_in_shell "L" "A" "icon.png" []
      default_configuration).2.2.1 (by decide),
   (icon_lookahead CommandFunction.exec_in_terminal "L" "A" "-t" ["error"]
      default_configuration).2.2.2.1 (by decide)⟩

/-- C7: a -t flag whose operand is a case variant of warning sets
message_type to WARNING and continues; a case variant of error leaves the
configuration unchanged and continues; any other operand yields
WrongArgument; together with the three concrete instances from the spec. -/
theorem type_flag_validation :
    ∀ (config : Configuration) (v : String) (rest : List String),
      (eq_ignore_ascii_case v "warning" = true →
        parseArgs ("-t" :: v :: rest) config =
          parseArgs rest { config with message_type := MessageType.WARNING }) ∧
      (eq_ignore_ascii_case v "error" = true →
        parseArgs ("-t" :: v :: rest) config = parseArgs rest config) ∧
      (eq_ignore_ascii_case v "warning" = false → eq_ignore_ascii_case v "error" = false →
        parseArgs ("-t" :: v :: rest) config =
          Except.error (ParseError.wrong_argument
            ("Parameter for -t (" ++ v ++ ") was neither warning nor error."))) ∧
      Configuration.new ["app", "-t", "Warning"] =
        Except.ok { default_configuration with message_type := MessageType.WARNING } ∧
      Configuration.new ["app", "-t", "ERROR"] = Except.ok default_configuration ∧
      Configuration.new ["app", "-t", "critical"] =
        Except.error (ParseError.wrong_argument
          "Parameter for -t (critical) was neither warning nor error.") := by
  intro config v rest
  refine ⟨?_, ?_, ?_, ?_, ?_, ?_⟩
  · intro h
    rw [parseArgs.eq_def]
    simp [h]
  · intro h
    have hw : eq_ignore_ascii_case v "warning" = false := by
      rw [eq_ignore_ascii_case, decide_eq_false_iff_not]
      intro hcontra
      rw [eq_ignore_ascii_case, decide_eq_true_eq] at h
      rw [h] at hcontra
      exact absurd hcontra (by decide)
    rw [parseArgs.eq_def]
    simp [h, hw]
  · intro h1 h2
    rw [parseArgs.eq_def]
    simp [h1, h2]
  · simp [Configuration.new, parseArgs, default_configuration, eq_ignore_ascii_case,
          asciiLowerChar]
  · simp [Configuration.new, parseArgs, default_configuration, eq_ignore_ascii_case,
          asciiLowerChar]
  · simp [Configuration.new, parseArgs, default_configuration, eq_ignore_ascii_case,
          asciiLowerChar]

theorem type_flag_validation_witness :
    parseArgs ["-t", "Warning"] default_configuration =
      parseArgs [] { default_configuration with message_type := MessageType.WARNING } ∧
    parseArgs ["-t", "eRRor", "-m"] default_configuration =
      parseArgs ["-m"] default_configuration ∧
    parseArgs ["-t", "critical"] default_configuration =
      Except.error (ParseError.wrong_argument
        "Parameter for -t (critical) was neither warning nor error.") :=
  ⟨(type_flag_validation default_configuration "Warning" []).1 (by decide),
   (type_flag_validation default_configuration "eRRor" ["-m"]).2.1 (by decide),
   (type_flag_validation default_configuration "critical" []).2.2.1 (by decide) (by decide)⟩

/-- C8: with an argv[0] that does not end in .cmd, the process exit code is 0
when parsing succeeds and, on a parse error, 0 for the HelpRequested and
VersionInfoRequested variants and 1 for MissingArgument and WrongArgument. -/
theorem exit_codes :
    ∀ (arg0 : String) (rest : List String),
      ends_with_cmd arg0 = false →
      (∀ c, Configuration.new (arg0 :: rest) = Except.ok c →
        main_exit_code (arg0 :: rest) = some 0) ∧
      (∀ e, Configuration.new (arg0 :: rest) = Except.error e →
        main_exit_code (arg0 :: rest) =
          some (if e.error_type = ParseErrorType.HelpRequested ∨
                   e.error_type = ParseErrorType.VersionInfoRequested then 0 else 1)) := by
  intro arg0 rest h
  constructor
  · intro c hc
    simp [main_exit_code, h, hc]
  · intro e he
    rcases e with ⟨msg, et⟩
    cases et <;> simp [main_exit_code, h, he, handle_error]

theorem exit_codes_witness :
    main_exit_code ["app", "-h"] = some 0 ∧
    main_exit_code ["app", "-v"] = some 0 ∧
    main_exit_code ["app"] = some 0 ∧
    main_exit_code ["app", "-m"] = some 1 ∧
    main_exit_code ["app", "-t", "critical"] = some 1 := by
  have hcmd : ends_with_cmd "app" = false := by decide
  refine ⟨?_, ?_, ?_, ?_, ?_⟩
  · have := (exit_codes "app" ["-h"] hcmd).2 ParseError.help_requested
      (by rw [Configuration.new]; simp; rw [parseArgs.eq_def]; simp)
    simpa [ParseError.help_requested] using this
  · have := (exit_codes "app" ["-v"] hcmd).2 ParseError.version_requested
      (by rw [Configuration.new]; simp; rw [parseArgs.eq_def]; simp)
    simpa [ParseError.version_requested] using this
  · exact (exit_codes "app" [] hcmd).1 default_configuration
      (by simp [Configuration.new, parseArgs])
  · have := (exit_codes "app" ["-m"] hcmd).2
      (ParseError.missing_argument "Required argument for -m is missing.")
      (by simp [Configuration.new, parseArgs])
    simpa [ParseError.missing_argument] using this
  · have := (exit_codes "app" ["-t", "critical"] hcmd).2
      (ParseError.wrong_argument "Parameter for -t (critical) was neither warning nor error.")
      (by simp [Configuration.new, parseArgs, eq_ignore_ascii_case, asciiLowerChar])
    simpa [ParseError.wrong_argument] using this

theorem parseArgs_buttons :
    ∀ (rest : List String) (config : Configuration) (c : Configuration),
      parseArgs rest config = Except.ok c →
      c.buttons = config.buttons ++ spec_button_list rest := by
  intro rest config
  induction rest, config using parseArgs.induct <;>
    intro c hok <;>
    rw [parseArgs.eq_def] at hok <;>
    rw [spec_button_list.eq_def] <;>
    simp_all
  all_goals (rcases ‹_ ∨ _› with rfl | rfl <;> simp_all)
  all_goals (cases hok; rfl)

/-- C5: when parsing succeeds, Configuration.buttons is exactly the list
described by the spec: one Button per button flag, in left-to-right flag
order whatever the interleaving of -b and -B, with -b buttons bound to the
terminal strategy and -B buttons bound to the direct-shell strategy (the
binding and operand consumption being recorded in spec_button_list). -/
theorem button_order :
    ∀ (args : List String) (c : Configuration),
      Configuration.new args = Except.ok c → c.buttons = spec_button_list (args.drop 1) := by
  intro args c h
  have := parseArgs_buttons (args.drop 1) default_configuration c h
  simpa [default_configuration] using this

theorem button_order_witness :
    ({ message := "This could be your text!", exit_after_action := true,
       message_type := MessageType.ERROR,
       buttons := [{ label := "Open", icon := none,
                     command := { command := "firefox",
                                  exec := CommandFunction.exec_in_terminal } },
                   { label := "Close", icon := none,
                     command := { command := "pkill firefox",
                                  exec := CommandFunction.exec_in_shell } }] } :
      Configuration).buttons =
      spec_button_list ["-b", "Open", "firefox", "-B", "Close", "pkill firefox",
                        "--exit-after-action"] :=
  button_order ["app", "-b", "Open", "firefox", "-B", "Close", "pkill firefox",
      "--exit-after-action"] _
    (by simp [Configuration.new, parseArgs, default_configuration, starts_with_dash])

theorem parseArgs_message :
    ∀ (rest : List String) (config : Configuration) (c : Configuration),
      "-m" ∉ rest → "--message" ∉ rest → parseArgs rest config = Except.ok c →
      c.message = config.message := by
  intro rest config
  induction rest, config using parseArgs.induct <;>
    intro c h1 h2 hok <;>
    rw [parseArgs.eq_def] at hok <;>
    simp_all
  all_goals (try (rcases ‹_ ∨ _› with rfl | rfl <;> simp_all))
  all_goals (cases hok; rfl)

/-- C9: when the argument list contains no -m or --message token and parsing
succeeds, Configuration.message is the fixed default text; each -m flag that
is processed overwrites the message with its operand, so among processed
occurrences the last one wins, as in the concrete double -m instance. -/
theorem default_message :
    ∀ (args : List String) (c config : Configuration) (msg : String) (rest : List String),
      ("-m" ∉ args.drop 1 → "--message" ∉ args.drop 1 → Configuration.new args = Except.ok c →
        c.message = "This could be your text!") ∧
      (parseArgs ("-m" :: msg :: rest) config = parseArgs rest { config with message := msg }) ∧
      (parseArgs ("--message" :: msg :: rest) config =
        parseArgs rest { config with message := msg }) ∧
      Configuration.new ["app", "-m", "first", "-m", "second"] =
        Except.ok { default_configuration with message := "second" } := by
  intro args c config msg rest
  refine ⟨?_, ?_, ?_, ?_⟩
  · intro h1 h2 hok
    have := parseArgs_message (args.drop 1) default_configuration c h1 h2 hok
    simpa [default_configuration] using this
  · rw [parseArgs.eq_def]; simp
  · rw [parseArgs.eq_def]; simp
  · simp [Configuration.new, parseArgs, default_configuration]

theorem default_message_witness :
    ({ message := "This could be your text!", exit_after_action := true,
       message_type := MessageType.ERROR, buttons := [] } : Configuration).message =
      "This could be your text!" :=
  (default_message ["app", "--exit-after-action"] _ default_configuration "x" []).1
    (by decide) (by decide)
    (by simp [Configuration.new, parseArgs, default_configuration])

theorem parseArgs_append_font :
    ∀ (g : String), (g = "-f" ∨ g = "--font") →
    ∀ (rest : List String) (config : Configuration) (c : Configuration),
      parseArgs rest config = Except.ok c →
      parseArgs (rest ++ [g]) config = Except.ok c := by
  intro g hg rest config
  rcases hg with rfl | rfl <;>
    (induction rest, config using parseArgs.induct <;>
      intro c hok <;>
      rw [parseArgs.eq_def] at hok <;>
      simp only [List.cons_append, List.nil_append] <;>
      rw [parseArgs.eq_def] <;>
      simp_all [starts_with_dash]) <;>
    (try (rcases ‹_ ∨ _› with rfl | rfl <;> simp_all [parseArgs, starts_with_dash]))

/-- C10 (amended): a -f or --font reached as a flag in last position does not
produce MissingArgument but ends the parse successfully with the current
configuration, and appending a trailing -f or --font to any argument list
whose parse succeeds leaves the successful result unchanged. -/
theorem font_flag_no_missing :
    ∀ (config c : Configuration) (rest : List String),
      parseArgs ["-f"] config = Except.ok config ∧
      parseArgs ["--font"] config = Except.ok config ∧
      (parseArgs rest config = Except.ok c →
        parseArgs (rest ++ ["-f"]) config = Except.ok c) ∧
      (parseArgs rest config = Except.ok c →
        parseArgs (rest ++ ["--font"]) config = Except.ok c) := by
  intro config c rest
  refine ⟨?_, ?_, ?_, ?_⟩
  · rw [parseArgs.eq_def]; simp
  · rw [parseArgs.eq_def]; simp
  · exact parseArgs_append_font "-f" (Or.inl rfl) rest config c
  · exact parseArgs_append_font "--font" (Or.inr rfl) rest config c

theorem font_flag_witness :
    parseArgs ["-t", "warning", "-f"] default_configuration =
      Except.ok { default_configuration with message_type := MessageType.WARNING } :=
  (font_flag_no_missing default_configuration
      { default_configuration with message_type := MessageType.WARNING }
      ["-t", "warning"]).2.2.1
    (by simp [parseArgs, eq_ignore_ascii_case, asciiLowerChar])

/-- C10 counterexample: the argument list [app, -b, -f] ends with -f as its
last token, yet parsing returns MissingArgument (the -b flag consumes -f as
its label and then finds no action), contradicting the claim that no list
ending in -f yields MissingArgument. -/
theorem trailing_font_missing_cex :
    Configuration.new ["app", "-b", "-f"] =
      Except.error (ParseError.missing_argument "Missing action for Button.") := by
  simp [Configuration.new, parseArgs, default_configuration]
